import Mathlib

/-
  Verification development for the moatless-testbeds repository.

  The Python sources are shallowly embedded: pure string processing becomes
  functions over lists of characters, stateful Kubernetes/HTTP interaction
  becomes explicit state passing over small record types, and raising Python
  exceptions becomes returning Except values.  Python str values are embedded
  as List Char (written PyStr below); top-level entry points accept String and
  convert via String.data so that statements can be written with literals.
-/

/-- Python str embedded as a list of characters. -/
abbrev PyStr := List Char

/-- Python whitespace set used by str.split() with no arguments. -/
def pyWhitespace (c : Char) : Bool :=
  c = ' ' || c = '\t' || c = '\n' || c = '\r' || c = '\x0b' || c = '\x0c'

/-- Helper for pySplitWs: walks the string keeping the current (reversed) word. -/
def pySplitWsGo : List Char → List Char → List PyStr
  | [], cur => if cur.isEmpty then [] else [cur.reverse]
  | c :: rest, cur =>
    if pyWhitespace c then
      if cur.isEmpty then pySplitWsGo rest [] else cur.reverse :: pySplitWsGo rest []
    else
      pySplitWsGo rest (c :: cur)

/-- Python s.split() with no argument: split on whitespace runs, dropping empties. -/
def pySplitWs (s : PyStr) : List PyStr := pySplitWsGo s []

/-- Helper for splitOnSep: skip counts separator characters still to consume
after a match (Python split never matches inside a previous match). -/
def splitOnSepGo (sep : List Char) : List Char → List Char → Nat → List PyStr
  | [], cur, _ => [cur.reverse]
  | _ :: rest, cur, Nat.succ skip => splitOnSepGo sep rest cur skip
  | c :: rest, cur, 0 =>
    if sep.isPrefixOf (c :: rest) then
      cur.reverse :: splitOnSepGo sep rest [] (sep.length - 1)
    else
      splitOnSepGo sep rest (c :: cur) 0

/-- Python s.split(sep) for a nonempty separator string. -/
def splitOnSep (sep : List Char) (s : PyStr) : List PyStr := splitOnSepGo sep s [] 0

/-- Python "sub in s" substring containment for strings. -/
def strContainsAux (pat : List Char) : List Char → Bool
  | [] => pat.isPrefixOf []
  | c :: rest => pat.isPrefixOf (c :: rest) || strContainsAux pat rest

/-- Python "pat in s" on embedded strings. -/
def pyContains (s pat : PyStr) : Bool := strContainsAux pat s

/-- Helper for pyReplace; skip counts pattern characters still to consume. -/
def pyReplaceGo (pat repl : List Char) : List Char → Nat → List Char
  | [], _ => []
  | _ :: rest, Nat.succ skip => pyReplaceGo pat repl rest skip
  | c :: rest, 0 =>
    if pat.isPrefixOf (c :: rest) then
      repl ++ pyReplaceGo pat repl rest (pat.length - 1)
    else
      c :: pyReplaceGo pat repl rest 0

/-- Python s.replace(pat, repl) for a nonempty pattern, left to right,
non-overlapping. -/
def pyReplace (s pat repl : PyStr) : PyStr := pyReplaceGo pat repl s 0

/-- Python str.lower restricted to ASCII (all strings the code lowercases are
ASCII log markers). -/
def pyToLowerChar (c : Char) : Char :=
  if 'A' ≤ c ∧ c ≤ 'Z' then Char.ofNat (c.toNat + 32) else c

/-- Python s.lower() on embedded strings. -/
def pyToLower (s : PyStr) : PyStr := s.map pyToLowerChar

/-- Python s.startswith(p). -/
def pyStartsWith (s p : PyStr) : Bool := p.isPrefixOf s

/-- Python s.endswith(p). -/
def pyEndsWith (s p : PyStr) : Bool := p.isSuffixOf s

/-- Python "sep".join(parts). -/
def pyJoin (sep : PyStr) (parts : List PyStr) : PyStr :=
  match parts with
  | [] => []
  | p :: rest => p ++ (rest.map (fun q => sep ++ q)).flatten

/-- Python s.strip(chars): drop characters of the set from both ends. -/
def pyStrip (chars : List Char) (s : PyStr) : PyStr :=
  ((s.dropWhile (fun c => chars.contains c)).reverse.dropWhile
    (fun c => chars.contains c)).reverse

/-- Python list indexing xs[i], raising IndexError when out of range. -/
def pyIdx {α : Type} (xs : List α) (i : Nat) : Except String α :=
  match xs.drop i with
  | x :: _ => Except.ok x
  | [] => Except.error "IndexError: list index out of range"

/-- Python xs[-1] for a nonempty-by-construction list (split results). -/
def pyLast (xs : List PyStr) : PyStr := xs.getLastD []

/-- Python xs[i:]. -/
def pyDrop {α : Type} (xs : List α) (i : Nat) : List α := xs.drop i

/-- Python s[:-1]. -/
def pyInit (s : PyStr) : PyStr := s.dropLast

/-
  Log parsers (src/testbed/swebench/log_parsers.py).
-/

/-- Modelled from the spec: the four canonical per-test outcomes of section
4.4.  The parsers import TestStatus from testbed.schema, but the copy of
schema.py in the sources lacks it; the uppercase value strings follow the
literals the parsers themselves compare against (for example "SKIPPED"). -/
inductive TestStatus where
  | passed
  | failed
  | skipped
  | error
deriving Repr, DecidableEq

/-- Enum value string of a TestStatus member. -/
def TestStatus.value : TestStatus → PyStr
  | .passed => "PASSED".data
  | .failed => "FAILED".data
  | .skipped => "SKIPPED".data
  | .error => "ERROR".data

/-- Python list(TestStatus): all members. -/
def TestStatus.all : List TestStatus := [.passed, .failed, .skipped, .error]

/-- Python TestStatus(s) lookup by value; raises ValueError on an unknown
value string. -/
def TestStatus.ofValue (s : PyStr) : Except String TestStatus :=
  if s = TestStatus.passed.value then Except.ok TestStatus.passed
  else if s = TestStatus.failed.value then Except.ok TestStatus.failed
  else if s = TestStatus.skipped.value then Except.ok TestStatus.skipped
  else if s = TestStatus.error.value then Except.ok TestStatus.error
  else Except.error "ValueError: unknown TestStatus"

/-- Modelled from the spec: one parsed test outcome (section 3, Test Result)
exactly as the log parsers construct it; the parsers' TestResult class is
imported from testbed.schema but absent from the copy of schema.py in the
sources. -/
structure TestResult where
  status : TestStatus
  name : PyStr
  file_path : Option PyStr := none
  method : Option PyStr := none
  failure_output : Option PyStr := none
deriving Repr, DecidableEq

/-- Length of a digits-then-m match continuing after a first digit
(helper for ansiMatchLen). -/
def ansiMatchLenGo : List Char → Nat → Option Nat
  | [], _ => none
  | c :: rest, n =>
    if c = 'm' then some (n + 1)
    else if c.isDigit then ansiMatchLenGo rest (n + 1) else none

/-- Matches the regex fragment (\d+)m at the head of the list, returning how
many characters it spans. -/
def ansiMatchLen : List Char → Option Nat
  | [] => none
  | c :: rest => if c.isDigit then ansiMatchLenGo rest 1 else none

/-- Helper for ansiSub; skip counts matched characters still to drop. -/
def ansiSubGo : List Char → Nat → List Char
  | [], _ => []
  | _ :: rest, Nat.succ skip => ansiSubGo rest skip
  | c :: rest, 0 =>
    if c = '[' then
      match ansiMatchLen rest with
      | some n => ansiSubGo rest n
      | none => c :: ansiSubGo rest 0
    else
      c :: ansiSubGo rest 0

/-- Python re.sub removing ANSI color fragments of the shape
left-bracket digits m, as in parse_log_pytest. -/
def ansiSub (s : PyStr) : PyStr := ansiSubGo s 0

/-- Python line.translate deleting the escape characters chr(1)..chr(31). -/
def removeEscapes (s : PyStr) : PyStr :=
  s.filter (fun c => !(1 ≤ c.toNat && c.toNat ≤ 31))

/-- Everything before the last right bracket of s (callers guarantee one
exists). -/
def beforeLastRBracket (s : List Char) : List Char :=
  ((s.reverse.dropWhile (fun c => c ≠ ']')).drop 1).reverse

/-- Helper for optionSearch: acc is the reversed prefix scanned so far. -/
def optionSearchGo : List Char → List Char → Option (PyStr × PyStr)
  | _, [] => none
  | acc, c :: rest =>
    if c = '[' && rest.contains ']' then
      some (acc.reverse, beforeLastRBracket rest)
    else
      optionSearchGo (c :: acc) rest

/-- Python option_pattern.search for the regex dot-star-lazy, left bracket,
dot-star, right bracket: group 1 is the text before the first left bracket
that still has a right bracket after it, group 2 runs to the last right
bracket of the string. -/
def optionSearch (s : PyStr) : Option (PyStr × PyStr) := optionSearchGo [] s

/-- Python s.split(sep, 1): at most one split. -/
def splitOnce (sep : List Char) (s : PyStr) : List PyStr :=
  match splitOnSep sep s with
  | [] => [s]
  | [x] => [x]
  | x :: rest => [x, pyJoin sep rest]

/-- Loop state of parse_log_pytest (test_summary_phase is assigned but never
read, exactly as in the source). -/
structure PytestState where
  test_results : List TestResult
  failure_outputs : List (PyStr × List PyStr)
  current_failure : Option PyStr
  current_section : List PyStr
  test_summary_phase : Bool
  failures_phase : Bool
deriving Repr

/-- Initial loop state of parse_log_pytest. -/
def initPytestState : PytestState := ⟨[], [], none, [], false, false⟩

/-- Python dict assignment d[k] = v on an insertion-ordered association
list. -/
def dictSet (d : List (PyStr × List PyStr)) (k : PyStr) (v : List PyStr) :
    List (PyStr × List PyStr) :=
  if d.any (fun e => e.1 = k) then d.map (fun e => if e.1 = k then (k, v) else e)
  else d ++ [(k, v)]

/-- Python d[k].extend(vs) for a key the callers have already inserted. -/
def dictExtend (d : List (PyStr × List PyStr)) (k : PyStr) (vs : List PyStr) :
    List (PyStr × List PyStr) :=
  d.map (fun e => if e.1 = k then (e.1, e.2 ++ vs) else e)

/-- Python key-membership test k in d. -/
def dictHasKey (d : List (PyStr × List PyStr)) (k : PyStr) : Bool :=
  d.any (fun e => e.1 = k)

/-- Python d[k] lookup (callers only read present keys). -/
def dictGet (d : List (PyStr × List PyStr)) (k : PyStr) : List PyStr :=
  match d.find? (fun e => e.1 = k) with
  | some e => e.2
  | none => []

/-- Python truthiness of the Optional[str] current_failure: None and the empty
string are falsy. -/
def optStrTruthy : Option PyStr → Bool
  | none => false
  | some s => !s.isEmpty

/-- Failures-section bookkeeping at the end of parse_log_pytest's loop body. -/
def pytestFailuresPhase (st : PytestState) (line : PyStr) : PytestState :=
  if st.failures_phase then
    if pyStartsWith line "_____".data then
      let d :=
        if optStrTruthy st.current_failure && !st.current_section.isEmpty then
          dictExtend st.failure_outputs (st.current_failure.getD []) st.current_section
        else st.failure_outputs
      let cf := pyStrip ['_', ' '] line
      { st with failure_outputs := dictSet d cf [],
                current_failure := some cf,
                current_section := [] }
    else if pyStartsWith line "=====".data then
      let d :=
        if optStrTruthy st.current_failure && !st.current_section.isEmpty then
          dictExtend st.failure_outputs (st.current_failure.getD []) st.current_section
        else st.failure_outputs
      { st with failure_outputs := d, current_failure := none, current_section := [] }
    else if optStrTruthy st.current_failure then
      { st with current_section := st.current_section ++ [line] }
    else st
  else st

/-- One iteration of parse_log_pytest's main loop; Except models the
exceptions Python list indexing and tuple unpacking can raise. -/
def pytestProcessLine (st : PytestState) (rawLine : PyStr) : Except String PytestState :=
  if pyContains rawLine "short test summary info".data then
    Except.ok { st with test_summary_phase := true, failures_phase := false }
  else if pyContains rawLine "=== FAILURES ===".data then
    Except.ok { st with test_summary_phase := false, failures_phase := true }
  else
    let line0 := removeEscapes (ansiSub rawLine)
    let anyStarts0 := TestStatus.all.any (fun x => pyStartsWith line0 x.value)
    let anyEnds0 := TestStatus.all.any (fun x => pyEndsWith line0 x.value)
    if anyStarts0 || anyEnds0 then
      let line :=
        if pyStartsWith line0 TestStatus.failed.value then
          pyReplace line0 " - ".data " ".data
        else line0
      let test_case := pySplitWs line
      if test_case.length ≤ 1 then Except.ok st
      else
        let anyStarts := TestStatus.all.any (fun x => pyStartsWith line x.value)
        let status_str0 := if anyStarts then test_case.headD [] else pyLast test_case
        let status_str := if pyEndsWith status_str0 ":".data then pyInit status_str0 else status_str0
        if status_str ≠ "SKIPPED".data && !(pyContains line "::".data) then Except.ok st
        else
          let status :=
            match TestStatus.ofValue status_str with
            | Except.ok s => s
            | Except.error _ => TestStatus.error
          do
            let result ←
              if status = TestStatus.skipped && pyStartsWith (test_case.getD 1 []) "[".data
                  && pyEndsWith (test_case.getD 1 []) "]".data then do
                let file_path_with_line ← pyIdx test_case 2
                match splitOnce [':'] file_path_with_line with
                | [file_path, _line_number] =>
                  pure (⟨status, pyJoin " ".data (pyDrop test_case 2),
                         some file_path, none, none⟩ : TestResult)
                | _ => Except.error "ValueError: not enough values to unpack"
              else do
                let fn0 := pyJoin " ".data (pyDrop test_case 1)
                let full_name :=
                  match optionSearch fn0 with
                  | some (main, opt) =>
                    let opt :=
                      if pyStartsWith opt "/".data && !pyStartsWith opt "//".data
                          && !opt.contains '*' then
                        '/' :: pyLast (splitOnSep ['/'] opt)
                      else opt
                    main ++ '[' :: (opt ++ [']'])
                  | none => fn0
                let parts := splitOnSep "::".data full_name
                if parts.length > 1 then do
                  let methodJ := pyJoin ".".data (pyDrop parts 1)
                  let method0 ← pyIdx (pySplitWs methodJ) 0
                  pure (⟨status, full_name, some (parts.headD []),
                         some method0, none⟩ : TestResult)
                else
                  pure (⟨status, full_name, none, none, none⟩ : TestResult)
            let st := { st with test_results := st.test_results ++ [result] }
            pure (pytestFailuresPhase st line)
    else
      Except.ok (pytestFailuresPhase st line0)

/-- parse_log_pytest from src/testbed/swebench/log_parsers.py: line scanner
over the whole log followed by stitching of the failures section onto FAILED
results. -/
def parse_log_pytest (log : String) : Except String (List TestResult) := do
  let final ← (splitOnSep ['\n'] log.data).foldlM pytestProcessLine initPytestState
  let failure_outputs :=
    if optStrTruthy final.current_failure && !final.current_section.isEmpty then
      dictExtend final.failure_outputs (final.current_failure.getD []) final.current_section
    else final.failure_outputs
  pure (final.test_results.map (fun t =>
    if t.status = TestStatus.failed then
      match t.method with
      | some m =>
        if dictHasKey failure_outputs m then
          { t with failure_output := some (pyJoin ['\n'] (dictGet failure_outputs m)) }
        else t
      | none => t
    else t))

/-- parse_log_matplotlib from src/testbed/swebench/log_parsers.py; unlike
parse_log_pytest it calls the TestStatus constructor with no try/except, so an
unknown status token raises ValueError. -/
def parse_log_matplotlib (log : String) : Except String (List TestResult) :=
  (splitOnSep ['\n'] log.data).foldlM (fun acc line0 => do
    let line := pyReplace line0 "MouseButton.LEFT".data "1".data
    let line := pyReplace line "MouseButton.RIGHT".data "3".data
    if TestStatus.all.any (fun x => pyStartsWith line x.value) then
      let line :=
        if pyStartsWith line TestStatus.failed.value then
          pyReplace line " - ".data " ".data
        else line
      let test_case := pySplitWs line
      if test_case.length ≤ 1 then pure acc
      else do
        let status ← TestStatus.ofValue (test_case.headD [])
        pure (acc ++ [(⟨status, test_case.getD 1 [], none, none, none⟩ : TestResult)])
    else pure acc) []

/-- Decidable equality for Except values, used to evaluate the embedded
functions on concrete inputs. -/
instance {e a : Type} [DecidableEq e] [DecidableEq a] : DecidableEq (Except e a) := fun x y =>
  match x, y with
  | Except.ok u, Except.ok v =>
    if h : u = v then isTrue (by rw [h]) else isFalse (by intro hc; cases hc; exact h rfl)
  | Except.error u, Except.error v =>
    if h : u = v then isTrue (by rw [h]) else isFalse (by intro hc; cases hc; exact h rfl)
  | Except.ok _, Except.error _ => isFalse (by intro hc; cases hc)
  | Except.error _, Except.ok _ => isFalse (by intro hc; cases hc)





/-
  Grading and evaluation reports (src/testbed/swebench/test_spec.py).
-/

/-- Modelled from the spec: the literal patch-apply failure marker from the
missing testbed/swebench/constants.py (section 6, the literal failure marker
bracketing patch-apply attempts). -/
def APPLY_PATCH_FAIL : PyStr := ">>>>> Patch Apply Failed".data

/-- Modelled from the spec: the reset-failure marker from the missing
constants.py. -/
def RESET_FAILED : PyStr := ">>>>> Reset Failed".data

/-- Modelled from the spec: the tests-errored marker from the missing
constants.py. -/
def TESTS_ERROR : PyStr := ">>>>> Tests Errored".data

/-- Modelled from the spec: the tests-timed-out marker from the missing
constants.py. -/
def TESTS_TIMEOUT : PyStr := ">>>>> Tests Timed Out".data

/-- Modelled from the spec: the literal patch-apply success marker from the
missing constants.py (section 6, the literal success marker). -/
def APPLY_PATCH_PASS : PyStr := ">>>>> Applied Patch".data

/-- Modelled from the spec: the FULL / PARTIAL / NONE resolution trichotomy of
section 4.5; the ResolvedStatus enum lives in the missing constants.py and its
NONE member is spelled NO at the call sites in test_spec.py and client.py. -/
inductive ResolvedStatus where
  | no
  | partialRes
  | full
deriving Repr, DecidableEq

/-- Modelled from the spec: one expected-transition group of the grading
report, the success and failure name lists of section 4.5 steps 2 and 3. -/
structure TestGroup where
  success : List PyStr := []
  failure : List PyStr := []
deriving Repr, DecidableEq

/-- Modelled from the spec: the TestsStatus value get_pred_report builds
(resolution status plus the two graded groups); the TestsStatus class the
swebench modules use is absent from the copy of schema.py in the sources. -/
structure TestsStatus where
  status : ResolvedStatus
  fail_to_pass : TestGroup := {}
  pass_to_pass : TestGroup := {}
deriving Repr, DecidableEq

/-- Modelled from the spec: get_eval_tests_report of the missing
testbed/swebench/grading.py (section 4.5 steps 1 to 3): partition the observed
results into passed and not-passed names and classify each expected name. -/
def get_eval_tests_report (results : List TestResult) (f2p p2p : List PyStr) :
    TestGroup × TestGroup :=
  let passedNames := (results.filter (fun r => r.status = TestStatus.passed)).map (fun r => r.name)
  (⟨f2p.filter (fun n => passedNames.contains n), f2p.filter (fun n => !passedNames.contains n)⟩,
   ⟨p2p.filter (fun n => passedNames.contains n), p2p.filter (fun n => !passedNames.contains n)⟩)

/-- Modelled from the spec: get_resolution_status of the missing grading.py
(section 4.5 step 4): FULL iff everything resolved and maintained, NONE iff no
fail_to_pass entry resolved, PARTIAL otherwise. -/
def get_resolution_status (f2p p2p : TestGroup) : ResolvedStatus :=
  if f2p.failure.isEmpty && p2p.failure.isEmpty then ResolvedStatus.full
  else if f2p.success.isEmpty then ResolvedStatus.no
  else ResolvedStatus.partialRes

/-- The unrecognizable-run test inside get_logs_eval (test_spec.py lines
286-300): the log holds one of the failure markers or lacks the applied-patch
marker in its lowercased text. -/
def unrecognizedRun (content : PyStr) : Bool :=
  pyContains content APPLY_PATCH_FAIL || pyContains content RESET_FAILED ||
  pyContains content TESTS_ERROR || pyContains content TESTS_TIMEOUT ||
  pyContains content "Failed to reset task environment".data ||
  !(pyContains (pyToLower content) "applied patch".data)

/-- get_logs_eval from src/testbed/swebench/test_spec.py lines 273-307.
parseFn stands for the parser MAP_REPO_TO_PARSER selects for self.repo (it can
itself raise); on an unrecognizable run the pair of an empty status map and
False is returned without invoking the parser. -/
def get_logs_eval (parseFn : String → Except String (List TestResult)) (content : String) :
    Except String (List TestResult × Bool) :=
  if unrecognizedRun content.data then
    Except.ok ([], false)
  else do
    let sliced := pyLast (splitOnSep (APPLY_PATCH_PASS ++ " (pred)".data) content.data)
    let results ← parseFn (String.mk sliced)
    pure (results, true)

/-- get_pred_report from src/testbed/swebench/test_spec.py lines 240-271, with
the parser passed explicitly (the source reads it from the dispatch table
inside get_logs_eval) and the expected-transition sets taken from the test
specification fields. -/
def get_pred_report (parseFn : String → Except String (List TestResult))
    (fail_to_pass pass_to_pass : List PyStr) (content : String) :
    Except String TestsStatus := do
  let found ← get_logs_eval parseFn content
  if !found.2 then
    pure { status := ResolvedStatus.no }
  else
    let report := get_eval_tests_report found.1 fail_to_pass pass_to_pass
    pure { status := get_resolution_status report.1 report.2,
           fail_to_pass := report.1, pass_to_pass := report.2 }

/-
  Evaluation results (src/testbed/schema.py and src/testbed/client/client.py).
-/

/-- EvaluationResult from src/testbed/schema.py lines 78-91: run_id and
instance_id are required pydantic fields; patch_applied and resolved default
to False and tests_status to an empty report (rendered here with the NONE
status, since the modelled TestsStatus always carries one). -/
structure EvaluationResult where
  run_id : String
  instance_id : String
  patch_applied : Bool := false
  resolved : Bool := false
  tests_status : TestsStatus := { status := ResolvedStatus.no }
deriving Repr, DecidableEq

/-- Pydantic construction of schema.EvaluationResult: the Option arguments are
the keyword arguments actually passed at a call site; a missing required field
raises ValidationError, and unknown keywords (the status= and output=
arguments passed at client.py line 449) are ignored by the default model
configuration and therefore have no parameter here. -/
def EvaluationResult.construct (run_id instance_id : Option String)
    (patch_applied resolved : Option Bool) (tests_status : Option TestsStatus) :
    Except String EvaluationResult :=
  match run_id, instance_id with
  | some r, some i =>
    Except.ok { run_id := r, instance_id := i,
                patch_applied := patch_applied.getD false,
                resolved := resolved.getD false,
                tests_status := tests_status.getD { status := ResolvedStatus.no } }
  | _, _ => Except.error "ValidationError: field required"

/-- run_evaluation from src/testbed/client/client.py lines 427-485, as a
function of the remote outputs it branches on: patchOutput is the output of
executing test_spec.patch_commands and evalOutput the output of the eval
script execution.  The reset, save_file and git-diff steps do not influence
the returned value and are threaded away; fresh_run_id stands for the supplied
run_id or the uuid4 fallback.  When APPLY_PATCH_FAIL appears in the patch
output the source builds EvaluationResult with only status= and output=
keywords, so the construction receives neither required field. -/
def run_evaluation (parseFn : String → Except String (List TestResult))
    (fail_to_pass pass_to_pass : List PyStr)
    (instance_id fresh_run_id : String) (patchOutput evalOutput : String) :
    Except String EvaluationResult :=
  if pyContains patchOutput.data "APPLY_PATCH_FAIL".data then
    EvaluationResult.construct none none none none none
  else do
    let test_status ← get_pred_report parseFn fail_to_pass pass_to_pass evalOutput
    EvaluationResult.construct (some fresh_run_id) (some instance_id)
      (some true) (some (test_status.status == ResolvedStatus.full)) (some test_status)

/-
  Readiness polling (src/testbed/client/client.py wait_until_ready).
-/

/-- ContainerStatus from src/testbed/schema.py. -/
structure ContainerStatus where
  ready : Bool
  started : Bool
  restart_count : Nat
  state : String
  reason : Option String := none
  message : Option String := none
deriving Repr, DecidableEq

/-- TestbedStatusDetailed from src/testbed/schema.py. -/
structure TestbedStatusDetailed where
  pod_phase : String
  testbed : ContainerStatus
  sidecar : ContainerStatus
deriving Repr, DecidableEq

/-- TestbedDetailed from src/testbed/schema.py. -/
structure TestbedDetailed where
  testbed_id : String
  instance_id : String
  status : TestbedStatusDetailed
  external_ip : Option String := none
deriving Repr, DecidableEq

/-- One poll iteration's remote observations in wait_until_ready: what
self.get_testbed() returns, and whether a health request issued at that moment
would come back with payload status OK (health_ok covers reachability and the
payload check together; request exceptions and non-OK payloads are both
false). -/
structure Poll where
  testbed : Option TestbedDetailed
  health_ok : Bool
deriving Repr, DecidableEq

/-- Python truthiness of an Optional[str]. -/
def optTruthy : Option String → Bool
  | none => false
  | some s => !(s == "")

/-- The infrastructure-readiness conjunction of wait_until_ready (client.py
lines 140-145) over the current-status fields of a found testbed. -/
def infraReady (in_cluster : Bool) (tb : TestbedDetailed) : Bool :=
  tb.status.pod_phase == "Running" && (optTruthy tb.external_ip || in_cluster)
    && tb.status.testbed.ready && tb.status.sidecar.ready

/-- wait_until_ready from src/testbed/client/client.py lines 79-174: one
recursion step per poll iteration, the caller's deadline rendered as the
number of iterations the timeout admits.  Success (the health payload said OK
after the infrastructure checks passed) returns the found testbed; an elapsed
deadline returns none, the Python None of line 174.  A missing testbed yields
the Not-found status dictionary, whose pod phase fails the Running check. -/
def wait_until_ready (in_cluster : Bool) : List Poll → Option TestbedDetailed
  | [] => none
  | p :: rest =>
    match p.testbed with
    | some tb =>
      if infraReady in_cluster tb && p.health_ok then some tb
      else wait_until_ready in_cluster rest
    | none => wait_until_ready in_cluster rest

/-
  The sandbox orchestrator (src/testbed/client/manager.py and
  src/testbed/api/main.py).
-/

/-- A Kubernetes Job as the orchestrator reads it: its name plus the
instance-id and user-id labels stamped by the job manifest. -/
structure K8sJob where
  name : String
  instance_id : String
  user_id : String
deriving Repr, DecidableEq

/-- Pod content relevant to the status readers: phase plus the two container
statuses. -/
structure PodInfo where
  phase : String
  testbed : ContainerStatus
  sidecar : ContainerStatus
deriving Repr, DecidableEq

/-- The slice of cluster state the orchestrator observes and mutates: jobs,
pods labelled with their job name, services with whether a ClusterIP is
assigned, the testbeds whose /health endpoint currently answers OK, and the
SWE-bench instance ids the dataset loader can resolve. -/
structure ClusterState where
  jobs : List K8sJob
  pods : List (String × PodInfo)
  services : List (String × Bool)
  healthy : List String
  knownInstances : List String
deriving Repr, DecidableEq

/-- _get_job from src/testbed/client/manager.py: the named job, or None on the
404 the cluster answers for an absent job. -/
def _get_job (st : ClusterState) (testbed_id : String) : Option K8sJob :=
  st.jobs.find? (fun j => j.name == testbed_id)

/-- _get_service_status from manager.py: Running with a ClusterIP, Pending
without one, Unknown on a 404. -/
def _get_service_status (st : ClusterState) (testbed_id : String) : String :=
  match st.services.find? (fun s => s.1 == testbed_id) with
  | some (_, true) => "Running"
  | some (_, false) => "Pending"
  | none => "Unknown"

/-- _read_testbed_status from manager.py lines 367-396: pod phase and service
status combined; Running is only reported after the application-level health
probe answered OK, otherwise the running-but-unhealthy case degrades to
Pending. -/
def _read_testbed_status (st : ClusterState) (job_name : String) : String :=
  let pod_status :=
    match st.pods.find? (fun p => p.1 == job_name) with
    | some p => p.2.phase
    | none => "Unknown"
  let service_status := _get_service_status st job_name
  if pod_status == "Running" && service_status == "Running" then
    if st.healthy.contains job_name then "Running" else "Pending"
  else if pod_status == "Pending" || service_status == "Pending" then "Pending"
  else "Unknown"

/-- _read_testbed_status_detailed from manager.py lines 398-432: None when no
pod carries the job label, otherwise pod phase and container statuses (the
extra service keyword the source passes is ignored by the schema class, which
has no such field). -/
def _read_testbed_status_detailed (st : ClusterState) (job_name : String) :
    Option TestbedStatusDetailed :=
  (st.pods.find? (fun p => p.1 == job_name)).map
    (fun p => ⟨p.2.phase, p.2.testbed, p.2.sidecar⟩)

/-- get_testbed from src/testbed/client/manager.py lines 194-200: None when
the job is missing or its user-id label differs from the caller's id. -/
def get_testbed (st : ClusterState) (testbed_id user_id : String) :
    Option TestbedStatusDetailed :=
  match _get_job st testbed_id with
  | none => none
  | some job =>
    if job.user_id ≠ user_id then none
    else _read_testbed_status_detailed st testbed_id

/-- The GET /testbeds/<id> handler from src/testbed/api/main.py lines 149-157:
404 with an error body when the manager returns None, 200 otherwise. -/
def api_get_testbed (st : ClusterState) (testbed_id user_id : String) :
    Nat × Option TestbedStatusDetailed :=
  match get_testbed st testbed_id user_id with
  | none => (404, none)
  | some t => (200, some t)

/-- TestbedSummary as get_or_create_testbed builds it; the copy of schema.py
in the sources still declares a structured status field, but the manager
passes the plain status string of _read_testbed_status, matching the newer
schema the manager was written against. -/
structure TestbedSummary where
  testbed_id : String
  instance_id : String
  status : String
deriving Repr, DecidableEq

/-- _generate_test_id from manager.py lines 310-313 with the random suffix
passed explicitly. -/
def _generate_test_id (instance_id suffix : String) : String :=
  String.mk (pyReplace instance_id.data "__".data "-".data) ++ "-testbed-" ++ suffix

/-- create_testbed from manager.py lines 137-192 over the cluster model: an
unknown instance raises, a name collision on the job or service surfaces the
cluster Conflict as ValueError, and otherwise job and service are created.
The created ClusterIP service carries its address immediately (the cluster
assigns it on creation) while the pod is scheduled asynchronously, so no pod
exists yet; the resource-tier table and manifest templating do not affect the
modelled state. -/
def create_testbed (st : ClusterState) (instance_id user_id suffix : String) :
    Except String (ClusterState × TestbedSummary) :=
  if !st.knownInstances.contains instance_id then
    Except.error "RuntimeError: Error loading instance"
  else
    let testbed_id := _generate_test_id instance_id suffix
    if st.jobs.any (fun j => j.name == testbed_id) then
      Except.error "ValueError: Testbed for instance already exists"
    else if st.services.any (fun s => s.1 == testbed_id) then
      Except.error "ValueError: Testbed for instance already exists"
    else
      let st' : ClusterState :=
        { st with jobs := st.jobs ++ [⟨testbed_id, instance_id, user_id⟩],
                  services := st.services ++ [(testbed_id, true)] }
      Except.ok (st', ⟨testbed_id, instance_id, _read_testbed_status st' testbed_id⟩)

/-- The reuse scan of get_or_create_testbed (manager.py lines 121-134): the
first job whose labels match and whose status is not Unknown; an Unknown match
only logs and the scan moves on. -/
def scanForReusable (st : ClusterState) (instance_id user_id : String) :
    List K8sJob → Option TestbedSummary
  | [] => none
  | j :: rest =>
    if j.instance_id == instance_id && j.user_id == user_id then
      let status := _read_testbed_status st j.name
      if status ≠ "Unknown" then some ⟨j.name, j.instance_id, status⟩
      else scanForReusable st instance_id user_id rest
    else scanForReusable st instance_id user_id rest

/-- get_or_create_testbed from src/testbed/client/manager.py lines 119-135:
reuse the first matching non-Unknown testbed, otherwise create a fresh one
(the Unknown branch neither deletes nor reuses the stale job). -/
def get_or_create_testbed (st : ClusterState) (instance_id user_id suffix : String) :
    Except String (ClusterState × TestbedSummary) :=
  match scanForReusable st instance_id user_id st.jobs with
  | some summary => Except.ok (st, summary)
  | none => create_testbed st instance_id user_id suffix

/-- delete_testbed from src/testbed/client/manager.py lines 245-282.  A
missing or foreign job raises ValueError inside the try block, which the
generic except-clause rewraps and re-raises as RuntimeError.  A 404 from the
service deletion is swallowed with a warning and the function returns None
without ever reaching the job deletion; otherwise service and job (with its
pods, via the foreground propagation policy) are removed and the deletion
response is returned. -/
def delete_testbed (st : ClusterState) (testbed_id user_id : String) :
    Except String (ClusterState × Option String) :=
  match _get_job st testbed_id with
  | none => Except.error "RuntimeError: Unexpected error during cleanup"
  | some job =>
    if job.user_id ≠ user_id then
      Except.error "RuntimeError: Unexpected error during cleanup"
    else if !(st.services.any (fun s => s.1 == testbed_id)) then
      Except.ok (st, none)
    else
      let st' : ClusterState :=
        { st with services := st.services.filter (fun s => !(s.1 == testbed_id)),
                  jobs := st.jobs.filter (fun j => !(j.name == testbed_id)),
                  pods := st.pods.filter (fun p => !(p.1 == testbed_id)) }
      Except.ok (st', some "Success")

/-
  File transfer (src/testbed/testbed/server.py and
  src/testbed/container/kubernetes.py) with the base64 text transport.
-/

/-- The base64 alphabet character of a sextet. -/
def b64Char (n : Nat) : Char :=
  if n < 26 then Char.ofNat ('A'.toNat + n)
  else if n < 52 then Char.ofNat ('a'.toNat + (n - 26))
  else if n < 62 then Char.ofNat ('0'.toNat + (n - 52))
  else if n = 62 then '+'
  else '/'

/-- Inverse of b64Char; none for padding and foreign characters, which Python
b64decode discards before decoding. -/
def b64CharDec (c : Char) : Option Nat :=
  if 'A' ≤ c ∧ c ≤ 'Z' then some (c.toNat - 'A'.toNat)
  else if 'a' ≤ c ∧ c ≤ 'z' then some (c.toNat - 'a'.toNat + 26)
  else if '0' ≤ c ∧ c ≤ '9' then some (c.toNat - '0'.toNat + 52)
  else if c = '+' then some 62
  else if c = '/' then some 63
  else none

/-- Python base64.b64encode over a byte list (bytes embedded as Nat values
below 256). -/
def b64encode : List Nat → List Char
  | [] => []
  | [a] => [b64Char (a / 4), b64Char (a % 4 * 16), '=', '=']
  | [a, b] => [b64Char (a / 4), b64Char (a % 4 * 16 + b / 16), b64Char (b % 16 * 4), '=']
  | a :: b :: c :: rest =>
    b64Char (a / 4) :: b64Char (a % 4 * 16 + b / 16) ::
      b64Char (b % 16 * 4 + c / 64) :: b64Char (c % 64) :: b64encode rest

/-- Sextet groups back to bytes (helper for b64decode). -/
def b64decodeSextets : List Nat → List Nat
  | e1 :: e2 :: e3 :: e4 :: rest =>
    (e1 * 4 + e2 / 16) :: (e2 % 16 * 16 + e3 / 4) :: (e3 % 4 * 64 + e4) ::
      b64decodeSextets rest
  | [e1, e2, e3] => [e1 * 4 + e2 / 16, e2 % 16 * 16 + e3 / 4]
  | [e1, e2] => [e1 * 4 + e2 / 16]
  | _ => []

/-- Python base64.b64decode on well-padded input: non-alphabet characters
(padding, and the newlines the in-container base64 tool wraps with) are
discarded, then sextets are packed back into bytes. -/
def b64decode (s : List Char) : List Nat :=
  b64decodeSextets (s.filterMap b64CharDec)

/-- The sandbox filesystem as the embedded file operations observe it. -/
abbrev Disk := List (String × List Nat)

/-- Write or overwrite a path on the modelled filesystem (the first entry for
the path is replaced in place; absent paths are appended). -/
def diskWrite : Disk → String → List Nat → Disk
  | [], path, content => [(path, content)]
  | e :: rest, path, content =>
    if e.1 == path then (path, content) :: rest
    else e :: diskWrite rest path content

/-- Read a path from the modelled filesystem. -/
def diskRead (d : Disk) (path : String) : Option (List Nat) :=
  (d.find? (fun e => e.1 == path)).map (fun e => e.2)

/-- Remove a path from the modelled filesystem. -/
def diskRemove (d : Disk) (path : String) : Disk :=
  d.filter (fun e => !(e.1 == path))

/-- write_file from src/testbed/container/kubernetes.py lines 322-361: paths
under the shared directory are written directly to disk; other paths go
through the shell round trip (echo of the base64 text piped through the
base64 decoder into the file, then cat piped back through the encoder) and the
decoded read-back is compared against the original content, raising on a
mismatch. -/
def KubernetesContainer.write_file (disk : Disk) (file_path : String) (content : List Nat) :
    Except String Disk :=
  if pyStartsWith file_path.data "/shared".data then
    Except.ok (diskWrite disk file_path content)
  else
    let encoded := b64encode content
    let disk' := diskWrite disk file_path (b64decode encoded)
    let resp := b64encode ((diskRead disk' file_path).getD [])
    let written := b64decode resp
    if written ≠ content then
      Except.error "Written content does not match original content"
    else Except.ok disk'

/-- UTF-8 bytes of one character, as Python str.encode produces them. -/
def utf8EncodeChar (c : Char) : List Nat :=
  let n := c.toNat
  if n < 128 then [n]
  else if n < 2048 then [192 + n / 64, 128 + n % 64]
  else if n < 65536 then [224 + n / 4096, 128 + n / 64 % 64, 128 + n % 64]
  else [240 + n / 262144, 128 + n / 4096 % 64, 128 + n / 64 % 64, 128 + n % 64]

/-- Python s.encode("utf-8") over an embedded string. -/
def utf8Encode (s : PyStr) : List Nat := (s.map utf8EncodeChar).flatten

/-- Strict UTF-8 decoding of a byte sequence, as Python bytes.decode("utf-8")
applies it to the data arriving on the Kubernetes exec stream before the
websocket client hands the caller a str: none models the UnicodeDecodeError a
malformed sequence raises (continuation bytes out of 128..191, overlong
forms, surrogates and values past U+10FFFF are all rejected). -/
def utf8Decode : List Nat → Option PyStr
  | [] => some []
  | b1 :: rest =>
    if b1 < 128 then (utf8Decode rest).map (fun cs => Char.ofNat b1 :: cs)
    else if b1 < 192 then none
    else
      match rest with
      | [] => none
      | b2 :: rest2 =>
        if b1 < 224 then
          if 128 ≤ b2 ∧ b2 < 192 ∧ 128 ≤ (b1 - 192) * 64 + (b2 - 128) then
            (utf8Decode rest2).map (fun cs => Char.ofNat ((b1 - 192) * 64 + (b2 - 128)) :: cs)
          else none
        else
          match rest2 with
          | [] => none
          | b3 :: rest3 =>
            if b1 < 240 then
              if 128 ≤ b2 ∧ b2 < 192 ∧ 128 ≤ b3 ∧ b3 < 192 ∧
                  2048 ≤ (b1 - 224) * 4096 + (b2 - 128) * 64 + (b3 - 128) ∧
                  ((b1 - 224) * 4096 + (b2 - 128) * 64 + (b3 - 128) < 55296 ∨
                    57343 < (b1 - 224) * 4096 + (b2 - 128) * 64 + (b3 - 128)) then
                (utf8Decode rest3).map
                  (fun cs => Char.ofNat ((b1 - 224) * 4096 + (b2 - 128) * 64 + (b3 - 128)) :: cs)
              else none
            else
              match rest3 with
              | [] => none
              | b4 :: rest4 =>
                if b1 < 248 then
                  if 128 ≤ b2 ∧ b2 < 192 ∧ 128 ≤ b3 ∧ b3 < 192 ∧ 128 ≤ b4 ∧ b4 < 192 ∧
                      65536 ≤ (b1 - 240) * 262144 + (b2 - 128) * 4096 +
                        (b3 - 128) * 64 + (b4 - 128) ∧
                      (b1 - 240) * 262144 + (b2 - 128) * 4096 +
                        (b3 - 128) * 64 + (b4 - 128) < 1114112 then
                    (utf8Decode rest4).map
                      (fun cs =>
                        Char.ofNat ((b1 - 240) * 262144 + (b2 - 128) * 4096 +
                          (b3 - 128) * 64 + (b4 - 128)) :: cs)
                  else none
                else none

/-- read_file from kubernetes.py lines 363-382: it runs cat over the
Kubernetes exec stream, a text channel, so the pod's bytes reach Python
UTF-8-decoded as a str (none models the UnicodeDecodeError that content
outside the text contract provokes in the websocket client).  A missing path
raises nothing: cat reports the error on the very stream whose accumulated
text is returned, so the result is cat's error message like any other
output. -/
def KubernetesContainer.read_file (disk : Disk) (file_path : String) : Option PyStr :=
  match diskRead disk file_path with
  | some content => utf8Decode content
  | none =>
    some ("cat: ".data ++ file_path.data ++ ": No such file or directory\n".data)

/-- save_file, the POST /file handler from src/testbed/testbed/server.py lines
97-113: a falsy file_path or content (in particular the empty base64 text of
an empty byte sequence) is rejected with 400 before anything is written;
otherwise the payload is decoded and written, handler exceptions mapping to
500. -/
def save_file (disk : Disk) (file_path : String) (content : List Char) : Disk × Nat :=
  if file_path == "" || content.isEmpty then (disk, 400)
  else
    match KubernetesContainer.write_file disk file_path (b64decode content) with
    | Except.ok d' => (d', 200)
    | Except.error _ => (disk, 500)

/-- get_file, the GET /file handler from server.py lines 77-95: 400 for a
missing path parameter; otherwise 200 with the base64 text of
content.encode(), the handler re-encoding the str cat streamed back — for a
missing file that str is cat's error message, so the except-FileNotFoundError
→ 404 branch is dead code.  A decode failure inside read_file escapes to the
generic exception handler as 500. -/
def get_file (disk : Disk) (file_path : String) : Nat × Option (List Char) :=
  if file_path == "" then (400, none)
  else
    match KubernetesContainer.read_file disk file_path with
    | some content => (200, some (b64encode (utf8Encode content)))
    | none => (500, none)

/-
  Command execution (src/testbed/container/kubernetes.py execute and the
  /exec handler of src/testbed/testbed/server.py).
-/

/-- CommandExecutionResponse as the execute endpoint returns it. -/
structure CommandExecutionResponse where
  execution_id : String
  status : String
  output : String
deriving Repr, DecidableEq

/-- KubernetesContainer.execute from kubernetes.py lines 190-240: writes the
command script, runs it synchronously over the Kubernetes exec stream
(streamOutcome is the outcome of that blocking call: the accumulated output,
or the exception a failure or timeout raises), removes the script, and
returns a response whose status is completed on success and failed otherwise.
The uuid4 execution id is passed explicitly; the script text is encoded to
bytes exactly as content.encode("utf-8") does. -/
def KubernetesContainer.execute (disk : Disk) (commands : List String)
    (execution_id : String) (streamOutcome : Except String String) :
    Except String (Disk × CommandExecutionResponse) := do
  let commands_file := "/tmp/" ++ execution_id ++ "_cmd.sh"
  let script_content := String.mk ("#!/bin/bash\n".data ++ pyJoin "\n".data (commands.map String.data))
  let disk ← KubernetesContainer.write_file disk commands_file
    (utf8Encode script_content.data)
  let res :=
    match streamOutcome with
    | Except.ok out => ("completed", out)
    | Except.error e => ("failed", "Error: " ++ e)
  let disk := diskRemove disk commands_file
  pure (disk, ⟨execution_id, res.1, res.2⟩)

/-- is_executing from kubernetes.py lines 284-292, returning its result
together with the updated started_at flag: False before any start (started_at
is initialised False and never set elsewhere in this revision), False with a
reset once the completion marker file exists, True otherwise. -/
def KubernetesContainer.is_executing (started_at : Bool) (complete_cmd_exists : Bool) :
    Bool × Bool :=
  if !started_at then (false, started_at)
  else if complete_cmd_exists then (false, false)
  else (true, started_at)

/-- One POST /exec request to the testbed server: the submitted commands, the
uuid the container will draw, and the outcome of the underlying exec
stream. -/
structure ExecRequest where
  commands : List String
  execution_id : String
  streamOutcome : Except String String

/-- The POST /exec handler of src/testbed/testbed/server.py lines 53-65 for a
single request: 200 with the container response, or 500 when execution
raised. -/
def execRoute (disk : Disk) (r : ExecRequest) :
    Disk × (Nat × Option CommandExecutionResponse) :=
  match KubernetesContainer.execute disk r.commands r.execution_id r.streamOutcome with
  | Except.ok dr => (dr.1, (200, some dr.2))
  | Except.error _ => (disk, (500, none))

/-- The /exec handler applied to a whole request trace.  The development
server serves requests one at a time (werkzeug's default single-threaded
serving), so the trace semantics runs each handler to completion before the
next. -/
def processExecRequests :
    Disk → List ExecRequest → Disk × List (Nat × Option CommandExecutionResponse)
  | disk, [] => (disk, [])
  | disk, r :: rest =>
    let step := execRoute disk r
    let out := processExecRequests step.1 rest
    (out.1, step.2 :: out.2)

/-
  Theorems.
-/

/-- Filtering away exactly the entries a predicate selects leaves nothing for
find? to find (used for deleted jobs and absent sandboxes). -/
lemma find?_filter_neg {α : Type} (p : α → Bool) (l : List α) :
    (l.filter (fun x => !(p x))).find? p = none := by
  induction l with
  | nil => rfl
  | cons x xs ih =>
    by_cases h : p x = true
    · simp [List.filter_cons, h, ih]
    · simp only [Bool.not_eq_true] at h
      simp [List.filter_cons, h, List.find?, ih]

/-- C10 counterexample: the claim says every log parser returns a list without
raising; parse_log_matplotlib raises ValueError on the status-prefixed line
PASSEDX a whose status token is not canonical, and parse_log_pytest raises
IndexError on the malformed summary line SKIPPED [1]. -/
theorem C10_counterexample :
    parse_log_matplotlib "PASSEDX a" = Except.error "ValueError: unknown TestStatus" ∧
    parse_log_pytest "SKIPPED [1]" = Except.error "IndexError: list index out of range" := by
  constructor
  · decide
  · decide

/-- C10 amended: parse_log_pytest classifies a line beginning with a
recognized status prefix whose token is not one of the four canonical outcomes
as the error outcome (with a logged warning) rather than dropping it, but
parse_log_matplotlib raises ValueError on the very same line instead of
defaulting, so the no-raise guarantee does not hold for it. -/
theorem C10_amended_unknown_status_default :
    parse_log_pytest "FAILEDX tests/test_a.py::test_b" =
      Except.ok [⟨TestStatus.error, "tests/test_a.py::test_b".data,
                 some "tests/test_a.py".data, some "test_b".data, none⟩] ∧
    parse_log_matplotlib "FAILEDX tests/test_a.py::test_b" =
      Except.error "ValueError: unknown TestStatus" := by
  constructor
  · decide
  · decide

/-- C3: on a log with no recognizable test-run marker (a failure marker
present, or the applied-patch marker absent), get_logs_eval returns the
explicit not-found pair of an empty status map and False without invoking the
log parser (the result is the same for every parser), and get_pred_report
short-circuits to the NONE resolution status; when the run is recognizable the
found flag is True, which is what distinguishes a short-circuited run from one
that executed and failed every test. -/
theorem C3_unrecognized_run_short_circuits
    (parseFn : String → Except String (List TestResult))
    (f2p p2p : List PyStr) (content : String) :
    (unrecognizedRun content.data = true →
      get_logs_eval parseFn content = Except.ok ([], false) ∧
      get_pred_report parseFn f2p p2p content = Except.ok { status := ResolvedStatus.no }) ∧
    (unrecognizedRun content.data = false →
      ∀ res, get_logs_eval parseFn content = Except.ok res → res.2 = true) := by
  constructor
  · intro h
    have h1 : get_logs_eval parseFn content = Except.ok ([], false) := by
      simp [get_logs_eval, h]
    exact ⟨h1, by simp [get_pred_report, h1, Bind.bind, Except.bind, pure, Except.pure]⟩
  · intro h res hres
    simp only [get_logs_eval, h, Bool.false_eq_true, if_false] at hres
    cases hp : parseFn (String.mk (pyLast (splitOnSep (APPLY_PATCH_PASS ++ " (pred)".data) content.data))) with
    | ok results =>
      rw [hp] at hres
      simp only [Bind.bind, Except.bind] at hres
      cases hres
      rfl
    | error e =>
      rw [hp] at hres
      simp only [Bind.bind, Except.bind] at hres
      cases hres

/-- C3 witness: a log with no marker at all short-circuits, for an arbitrary
concrete parser. -/
theorem C3_witness :
    unrecognizedRun "x".data = true ∧
    get_logs_eval (fun _ => Except.ok []) "x" = Except.ok ([], false) ∧
    get_pred_report (fun _ => Except.ok []) [] [] "x" = Except.ok { status := ResolvedStatus.no } :=
  ⟨by decide,
   ((C3_unrecognized_run_short_circuits (fun _ => Except.ok []) [] [] "x").1 (by decide)).1,
   ((C3_unrecognized_run_short_circuits (fun _ => Except.ok []) [] [] "x").1 (by decide)).2⟩

/-- C5: when the patch-apply output carries the failure marker, run_evaluation
stops before the eval script result is consulted, but the early return
constructs schema.EvaluationResult with only the status and output keywords,
so the required run_id and instance_id fields are missing and pydantic raises
ValidationError: the patch failure surfaces as an exception instead of the
first-class result with patch_applied False that the claim requires. -/
theorem C5_patch_fail_surfaces_as_exception
    (parseFn : String → Except String (List TestResult)) (f2p p2p : List PyStr)
    (instance_id fresh_run_id patchOutput evalOutput : String)
    (h : pyContains patchOutput.data "APPLY_PATCH_FAIL".data = true) :
    run_evaluation parseFn f2p p2p instance_id fresh_run_id patchOutput evalOutput =
      Except.error "ValidationError: field required" := by
  simp [run_evaluation, h, EvaluationResult.construct]

/-- C5 witness: the exception at a concrete failing patch output, independent
of the eval output. -/
theorem C5_witness :
    pyContains "APPLY_PATCH_FAIL: patch failed".data "APPLY_PATCH_FAIL".data = true ∧
    run_evaluation (fun _ => Except.ok []) [] [] "inst" "run"
        "APPLY_PATCH_FAIL: patch failed" "any output" =
      Except.error "ValidationError: field required" :=
  ⟨by decide,
   C5_patch_fail_surfaces_as_exception (fun _ => Except.ok []) [] [] "inst" "run"
     "APPLY_PATCH_FAIL: patch failed" "any output" (by decide)⟩

/-- C2: wait_until_ready reports success only through the branch in which the
found testbed passed every infrastructure check (pod phase Running, address
available or in-cluster, both containers ready) and the health endpoint then
answered with an OK payload; and the orchestrator's status derivation likewise
never reports Running unless the health probe answered OK. -/
theorem C2_success_requires_health_ok (in_cluster : Bool) (polls : List Poll)
    (tb : TestbedDetailed) (h : wait_until_ready in_cluster polls = some tb) :
    (∃ p ∈ polls, p.testbed = some tb ∧ infraReady in_cluster tb = true ∧ p.health_ok = true) ∧
    (∀ st n, _read_testbed_status st n = "Running" → st.healthy.contains n = true) := by
  constructor
  · induction polls with
    | nil => simp [wait_until_ready] at h
    | cons p rest ih =>
      simp only [wait_until_ready] at h
      split at h
      · rename_i tb' hp
        split at h
        · rename_i hc
          cases h
          simp only [Bool.and_eq_true] at hc
          exact ⟨p, List.mem_cons_self _ _, hp, hc.1, hc.2⟩
        · obtain ⟨q, hq, hprop⟩ := ih h
          exact ⟨q, List.mem_cons_of_mem _ hq, hprop⟩
      · obtain ⟨q, hq, hprop⟩ := ih h
        exact ⟨q, List.mem_cons_of_mem _ hq, hprop⟩
  · intro st n hrun
    simp only [_read_testbed_status] at hrun
    split at hrun
    · split at hrun
      · assumption
      · simp at hrun
    · split at hrun
      · simp at hrun
      · simp at hrun

/-- C2 witness: a poll whose testbed is infrastructure-ready and whose health
probe answers OK makes wait_until_ready succeed, and the theorem recovers the
successful poll. -/
theorem C2_witness :
    (∃ p ∈ [(⟨some ⟨"tb1", "inst",
               ⟨"Running", ⟨true, true, 0, "running", none, none⟩,
                ⟨true, true, 0, "running", none, none⟩⟩, some "1.2.3.4"⟩, true⟩ : Poll)],
        p.testbed = some ⟨"tb1", "inst",
               ⟨"Running", ⟨true, true, 0, "running", none, none⟩,
                ⟨true, true, 0, "running", none, none⟩⟩, some "1.2.3.4"⟩ ∧
        infraReady false ⟨"tb1", "inst",
               ⟨"Running", ⟨true, true, 0, "running", none, none⟩,
                ⟨true, true, 0, "running", none, none⟩⟩, some "1.2.3.4"⟩ = true ∧
        p.health_ok = true) ∧
    (∀ st n, _read_testbed_status st n = "Running" → st.healthy.contains n = true) :=
  C2_success_requires_health_ok false _ _ (by decide)

/-- C9 counterexample: the claim says an elapsed deadline never yields a
silent None; with two polls in which the testbed is never found, the deadline
elapses and wait_until_ready returns None, exactly the Python return at
client.py line 174 (only an error is logged). -/
theorem C9_counterexample :
    wait_until_ready false [⟨none, true⟩, ⟨none, true⟩] = none := by decide

/-- C9 amended: on an elapsed deadline the caller receives None rather than a
typed timeout result or raised error; None is returned exactly when no poll
within the deadline both passed the infrastructure checks and saw an OK health
payload, so the None timeout outcome is still distinguishable from success,
which always returns the found testbed object. -/
theorem C9_amended_none_exactly_on_timeout (in_cluster : Bool) (polls : List Poll) :
    wait_until_ready in_cluster polls = none ↔
      ∀ p ∈ polls, ¬(∃ tb, p.testbed = some tb ∧
        infraReady in_cluster tb = true ∧ p.health_ok = true) := by
  induction polls with
  | nil => simp [wait_until_ready]
  | cons p rest ih =>
    simp only [wait_until_ready]
    split
    · rename_i tb' hp
      split
      · rename_i hc
        simp only [Bool.and_eq_true] at hc
        simp only [List.mem_cons, forall_eq_or_imp]
        constructor
        · intro hnone; cases hnone
        · intro hall
          exact absurd ⟨tb', hp, hc.1, hc.2⟩ hall.1
      · rename_i hc
        simp only [List.mem_cons, forall_eq_or_imp]
        rw [ih]
        constructor
        · intro hall
          refine ⟨?_, hall⟩
          rintro ⟨tb, htb, hinfra, hhealth⟩
          rw [hp] at htb
          injection htb with heq
          subst heq
          exact hc (by simp [hinfra, hhealth])
        · intro hall; exact hall.2
    · rename_i hp
      simp only [List.mem_cons, forall_eq_or_imp]
      rw [ih]
      constructor
      · intro hall
        refine ⟨?_, hall⟩
        rintro ⟨tb, htb, _⟩
        rw [hp] at htb
        cases htb
      · intro hall; exact hall.2

/-- C4: for a sandbox owned by userA, a lookup by any distinct userB produces
the identical 404 not-found response that the same lookup produces after the
sandbox is removed entirely, so the response observed by userB is independent
of whether userA's sandbox exists. -/
theorem C4_ownership_is_confidentiality (st : ClusterState) (testbed_id userA userB : String)
    (job : K8sJob) (hjob : _get_job st testbed_id = some job) (hown : job.user_id = userA)
    (hne : userB ≠ userA) :
    api_get_testbed st testbed_id userB = (404, none) ∧
    api_get_testbed { st with jobs := st.jobs.filter (fun j => !(j.name == testbed_id)) }
        testbed_id userB = (404, none) := by
  constructor
  · have hne' : job.user_id ≠ userB := by
      rw [hown]; intro hh; exact hne hh.symm
    simp [api_get_testbed, get_testbed, hjob, hne']
  · have hnone : _get_job
        { st with jobs := st.jobs.filter (fun j => !(j.name == testbed_id)) } testbed_id = none := by
      simp only [_get_job]
      exact find?_filter_neg _ _
    simp [api_get_testbed, get_testbed, hnone]

/-- C4 witness: a sandbox owned by alice looks exactly like a nonexistent one
to bob. -/
theorem C4_witness :
    api_get_testbed ⟨[⟨"tb1", "inst", "alice"⟩], [], [], [], []⟩ "tb1" "bob" = (404, none) ∧
    api_get_testbed { (⟨[⟨"tb1", "inst", "alice"⟩], [], [], [], []⟩ : ClusterState) with
      jobs := (⟨[⟨"tb1", "inst", "alice"⟩], [], [], [], []⟩ : ClusterState).jobs.filter
        (fun j => !(j.name == "tb1")) } "tb1" "bob" = (404, none) :=
  C4_ownership_is_confidentiality ⟨[⟨"tb1", "inst", "alice"⟩], [], [], [], []⟩ "tb1"
    "alice" "bob" ⟨"tb1", "inst", "alice"⟩ (by decide) rfl (by decide)

/-- C8 counterexample: deleting an existing owned testbed succeeds, but the
immediately following delete of the now-absent testbed raises RuntimeError (the
ValueError raised for a missing job is rewrapped by the generic except clause),
so deleting twice differs from deleting once and deleting an absent sandbox is
an error, not a success. -/
theorem C8_counterexample :
    delete_testbed ⟨[⟨"tb", "inst", "u"⟩], [], [("tb", true)], [], []⟩ "tb" "u" =
      Except.ok (⟨[], [], [], [], []⟩, some "Success") ∧
    delete_testbed ⟨[], [], [], [], []⟩ "tb" "u" =
      Except.error "RuntimeError: Unexpected error during cleanup" := by
  constructor
  · decide
  · decide

/-- C8 amended: delete_testbed deletes an existing owned testbed (whose
service exists) and afterwards the job is gone, but deleting when the job is
already absent raises RuntimeError instead of completing as a success, so
deletion is not idempotent. -/
theorem C8_amended_delete_not_idempotent (st : ClusterState) (testbed_id user_id : String) :
    (_get_job st testbed_id = none →
      delete_testbed st testbed_id user_id =
        Except.error "RuntimeError: Unexpected error during cleanup") ∧
    (∀ job, _get_job st testbed_id = some job → job.user_id = user_id →
      st.services.any (fun s => s.1 == testbed_id) = true →
      ∃ st', delete_testbed st testbed_id user_id = Except.ok (st', some "Success") ∧
        _get_job st' testbed_id = none) := by
  constructor
  · intro h
    simp [delete_testbed, h]
  · intro job hjob hju hsvc
    refine ⟨⟨st.jobs.filter (fun j => !(j.name == testbed_id)),
             st.pods.filter (fun p => !(p.1 == testbed_id)),
             st.services.filter (fun s => !(s.1 == testbed_id)),
             st.healthy, st.knownInstances⟩, ?_, ?_⟩
    · simp [delete_testbed, hjob, hju, hsvc]
    · show (st.jobs.filter (fun j => !(j.name == testbed_id))).find?
        (fun j => j.name == testbed_id) = none
      exact find?_filter_neg _ _

/-- C8 witness: the amended behaviour at concrete states — error on an absent
job, success with removal on a present one. -/
theorem C8_witness :
    delete_testbed ⟨[], [], [], [], ["i"]⟩ "tb" "u" =
      Except.error "RuntimeError: Unexpected error during cleanup" ∧
    (∃ st', delete_testbed ⟨[⟨"tb2", "i", "u"⟩], [], [("tb2", true)], [], []⟩ "tb2" "u" =
        Except.ok (st', some "Success") ∧ _get_job st' "tb2" = none) :=
  ⟨(C8_amended_delete_not_idempotent ⟨[], [], [], [], ["i"]⟩ "tb" "u").1 (by decide),
   (C8_amended_delete_not_idempotent ⟨[⟨"tb2", "i", "u"⟩], [], [("tb2", true)], [], []⟩
      "tb2" "u").2 ⟨"tb2", "i", "u"⟩ (by decide) rfl (by decide)⟩

/-- A successful KubernetesContainer.execute always carries a terminal status:
completed when the exec stream ran through, failed when it raised. -/
lemma execute_status_terminal (disk : Disk) (commands : List String) (eid : String)
    (so : Except String String) (dr : Disk × CommandExecutionResponse)
    (h : KubernetesContainer.execute disk commands eid so = Except.ok dr) :
    dr.2.status = "completed" ∨ dr.2.status = "failed" := by
  simp only [KubernetesContainer.execute, Bind.bind, Except.bind] at h
  cases hw : KubernetesContainer.write_file disk ("/tmp/" ++ eid ++ "_cmd.sh")
      (utf8Encode (String.mk ("#!/bin/bash\n".data ++ pyJoin "\n".data (commands.map String.data))).data) with
  | error e =>
    rw [hw] at h
    cases h
  | ok d =>
    rw [hw] at h
    simp only [pure, Except.pure] at h
    cases so with
    | ok out =>
      cases h
      left
      rfl
    | error e =>
      cases h
      right
      rfl


/-- Unfolding equation of processExecRequests on a nonempty trace. -/
lemma processExecRequests_cons (disk : Disk) (r : ExecRequest) (rest : List ExecRequest) :
    processExecRequests disk (r :: rest) =
      ((processExecRequests (execRoute disk r).1 rest).1,
        (execRoute disk r).2 :: (processExecRequests (execRoute disk r).1 rest).2) :=
  rfl

/-- Route outcome when the container execution returned. -/
lemma execRoute_ok (d : Disk) (r : ExecRequest) (dr : Disk × CommandExecutionResponse)
    (hex : KubernetesContainer.execute d r.commands r.execution_id r.streamOutcome = Except.ok dr) :
    execRoute d r = (dr.1, (200, some dr.2)) := by
  unfold execRoute
  rw [hex]

/-- Route outcome when the container execution raised. -/
lemma execRoute_err (d : Disk) (r : ExecRequest) (e : String)
    (hex : KubernetesContainer.execute d r.commands r.execution_id r.streamOutcome = Except.error e) :
    execRoute d r = (d, (500, none)) := by
  unfold execRoute
  rw [hex]

/-- A response list whose entries are all terminal contains no running
entry. -/
lemma filter_running_nil (l : List (Nat × Option CommandExecutionResponse))
    (h : ∀ pr ∈ l, ∀ resp, pr.2 = some resp →
      resp.status = "completed" ∨ resp.status = "failed") :
    (l.filter (fun pr => match pr.2 with
      | some r => r.status == "running"
      | none => false)).length = 0 := by
  induction l with
  | nil => rfl
  | cons x xs ih =>
    rw [List.filter_cons]
    have hx : (match x.2 with
        | some r => r.status == "running"
        | none => false) = false := by
      cases hx2 : x.2 with
      | none => rfl
      | some r =>
        have hterm := h x (List.mem_cons_self _ _) r hx2
        show (r.status == "running") = false
        rcases hterm with hh | hh <;> rw [hh] <;> rfl
    rw [hx]
    simp only [Bool.false_eq_true, if_false]
    exact ih (fun pr hpr => h pr (List.mem_cons_of_mem _ hpr))

/-- C1: over any sequence of /exec submissions processed by the testbed
server, every execution response the protocol layer hands out already carries
a terminal status (completed or failed, never running), because execute runs
the submitted script synchronously to completion; consequently the number of
non-terminal executions visible at any time is zero, so in particular at most
one non-terminal Execution exists per sandbox — a second submission is
serialized behind the first, never run interleaved with it. -/
theorem C1_executions_always_terminal (disk : Disk) (reqs : List ExecRequest) :
    (∀ pr ∈ (processExecRequests disk reqs).2, ∀ resp, pr.2 = some resp →
      resp.status = "completed" ∨ resp.status = "failed") ∧
    ((processExecRequests disk reqs).2.filter
        (fun pr => match pr.2 with
          | some r => r.status == "running"
          | none => false)).length = 0 := by
  have main : ∀ d : Disk, ∀ pr ∈ (processExecRequests d reqs).2, ∀ resp, pr.2 = some resp →
      resp.status = "completed" ∨ resp.status = "failed" := by
    induction reqs with
    | nil =>
      intro d pr hpr
      have h0 : processExecRequests d [] = (d, []) := rfl
      rw [h0] at hpr
      cases hpr
    | cons r rest ih =>
      intro d pr hpr resp hresp
      cases hex : KubernetesContainer.execute d r.commands r.execution_id r.streamOutcome with
      | ok dr =>
        have hunf : processExecRequests d (r :: rest) =
            ((processExecRequests dr.1 rest).1,
              (200, some dr.2) :: (processExecRequests dr.1 rest).2) := by
          rw [processExecRequests_cons, execRoute_ok d r dr hex]
        rw [hunf] at hpr
        rcases List.mem_cons.mp hpr with hpr' | hpr'
        · subst hpr'
          injection hresp with h2
          subst h2
          exact execute_status_terminal _ _ _ _ _ hex
        · exact ih dr.1 pr hpr' resp hresp
      | error e =>
        have hunf : processExecRequests d (r :: rest) =
            ((processExecRequests d rest).1,
              (500, none) :: (processExecRequests d rest).2) := by
          rw [processExecRequests_cons, execRoute_err d r e hex]
        rw [hunf] at hpr
        rcases List.mem_cons.mp hpr with hpr' | hpr'
        · subst hpr'
          cases hresp
        · exact ih d pr hpr' resp hresp
  exact ⟨main disk, filter_running_nil _ (main disk)⟩

/-- C1 witness: a two-request trace (one succeeding, one raising) yields no
running response, and the first response is terminal. -/
theorem C1_witness :
    ((processExecRequests [] [⟨["echo hi"], "id1", Except.ok "hi"⟩,
        ⟨["sleep"], "id2", Except.error "timeout"⟩]).2.filter
       (fun pr => match pr.2 with
         | some r => r.status == "running"
         | none => false)).length = 0 ∧
    ((⟨"id1", "completed", "hi"⟩ : CommandExecutionResponse).status = "completed" ∨
      (⟨"id1", "completed", "hi"⟩ : CommandExecutionResponse).status = "failed") :=
  ⟨(C1_executions_always_terminal [] [⟨["echo hi"], "id1", Except.ok "hi"⟩,
      ⟨["sleep"], "id2", Except.error "timeout"⟩]).2,
   (C1_executions_always_terminal [] [⟨["echo hi"], "id1", Except.ok "hi"⟩,
      ⟨["sleep"], "id2", Except.error "timeout"⟩]).1 (200, some ⟨"id1", "completed", "hi"⟩)
      (by decide) ⟨"id1", "completed", "hi"⟩ rfl⟩

/-- The base64 alphabet decodes back to the sextet it encodes. -/
lemma b64CharDec_b64Char : ∀ k, k < 64 → b64CharDec (b64Char k) = some k := by decide

/-- Reading a just-written path returns exactly the written content. -/
lemma diskRead_diskWrite (d : Disk) (p : String) (c : List Nat) :
    diskRead (diskWrite d p c) p = some c := by
  induction d with
  | nil =>
    simp [diskWrite, diskRead, List.find?]
  | cons e rest ih =>
    by_cases h : (e.1 == p) = true
    · have hw : diskWrite (e :: rest) p c = (p, c) :: rest := by
        simp [diskWrite, h]
      rw [hw]
      simp [diskRead, List.find?]
    · have hw : diskWrite (e :: rest) p c = e :: diskWrite rest p c := by
        simp [diskWrite, h]
      rw [hw]
      simp only [diskRead, List.find?] at ih ⊢
      rw [Bool.eq_false_iff.mpr h]
      exact ih

/-- Decoding inverts encoding on byte lists: the base64 text transport is
lossless. -/
lemma b64_roundtrip : ∀ (bs : List Nat), (∀ x ∈ bs, x < 256) →
    b64decode (b64encode bs) = bs
  | [], _ => rfl
  | [a], h => by
    have ha : a < 256 := h a (by simp)
    have d1 : b64CharDec (b64Char (a / 4)) = some (a / 4) :=
      b64CharDec_b64Char _ (by omega)
    have d2 : b64CharDec (b64Char (a % 4 * 16)) = some (a % 4 * 16) :=
      b64CharDec_b64Char _ (by omega)
    have de : b64CharDec '=' = none := rfl
    simp only [b64encode, b64decode, List.filterMap_cons, d1, d2, de,
      List.filterMap_nil, b64decodeSextets]
    have : a / 4 * 4 + a % 4 * 16 / 16 = a := by omega
    rw [this]
  | [a, b], h => by
    have ha : a < 256 := h a (by simp)
    have hb : b < 256 := h b (by simp)
    have d1 : b64CharDec (b64Char (a / 4)) = some (a / 4) :=
      b64CharDec_b64Char _ (by omega)
    have d2 : b64CharDec (b64Char (a % 4 * 16 + b / 16)) = some (a % 4 * 16 + b / 16) :=
      b64CharDec_b64Char _ (by omega)
    have d3 : b64CharDec (b64Char (b % 16 * 4)) = some (b % 16 * 4) :=
      b64CharDec_b64Char _ (by omega)
    have de : b64CharDec '=' = none := rfl
    simp only [b64encode, b64decode, List.filterMap_cons, d1, d2, d3, de,
      List.filterMap_nil, b64decodeSextets]
    have e1 : a / 4 * 4 + (a % 4 * 16 + b / 16) / 16 = a := by omega
    have e2 : (a % 4 * 16 + b / 16) % 16 * 16 + b % 16 * 4 / 4 = b := by omega
    rw [e1, e2]
  | a :: b :: c :: rest, h => by
    have ha : a < 256 := h a (by simp)
    have hb : b < 256 := h b (by simp)
    have hc : c < 256 := h c (by simp)
    have ih := b64_roundtrip rest (fun x hx => h x (by simp [hx]))
    have d1 : b64CharDec (b64Char (a / 4)) = some (a / 4) :=
      b64CharDec_b64Char _ (by omega)
    have d2 : b64CharDec (b64Char (a % 4 * 16 + b / 16)) = some (a % 4 * 16 + b / 16) :=
      b64CharDec_b64Char _ (by omega)
    have d3 : b64CharDec (b64Char (b % 16 * 4 + c / 64)) = some (b % 16 * 4 + c / 64) :=
      b64CharDec_b64Char _ (by omega)
    have d4 : b64CharDec (b64Char (c % 64)) = some (c % 64) :=
      b64CharDec_b64Char _ (by omega)
    simp only [b64encode, b64decode, List.filterMap_cons, d1, d2, d3, d4, b64decodeSextets]
    have e1 : a / 4 * 4 + (a % 4 * 16 + b / 16) / 16 = a := by omega
    have e2 : (a % 4 * 16 + b / 16) % 16 * 16 + (b % 16 * 4 + c / 64) / 4 = b := by omega
    have e3 : (b % 16 * 4 + c / 64) % 4 * 64 + c % 64 = c := by omega
    rw [e1, e2, e3]
    have ih' : b64decodeSextets (List.filterMap b64CharDec (b64encode rest)) = rest := ih
    rw [ih']

/-- write_file succeeds and stores exactly the given bytes: the shared-path
branch writes directly, and in the network branch the verification read-back
decodes to the original content. -/
lemma write_file_ok (disk : Disk) (path : String) (bytes : List Nat)
    (hb : ∀ x ∈ bytes, x < 256) :
    KubernetesContainer.write_file disk path bytes = Except.ok (diskWrite disk path bytes) := by
  have h1 : b64decode (b64encode bytes) = bytes := b64_roundtrip bytes hb
  simp only [KubernetesContainer.write_file]
  by_cases hs : pyStartsWith path.data "/shared".data = true
  · rw [if_pos hs]
  · rw [if_neg hs]
    rw [h1, diskRead_diskWrite]
    simp [h1]

/-- Recovering a character from its own code point: Char.ofNat applied to
c.toNat is c (the validity branch of ofNat is taken because c carries its
proof). -/
lemma char_ofNat_toNat (c : Char) : Char.ofNat c.toNat = c := by
  have hv : c.toNat.isValidChar := c.valid
  unfold Char.ofNat
  rw [dif_pos hv]
  apply Char.eq_of_val_eq
  apply UInt32.ext
  rfl

/-- Every byte the single-character UTF-8 encoder emits is a byte. -/
lemma utf8EncodeChar_lt_256 (c : Char) : ∀ x ∈ utf8EncodeChar c, x < 256 := by
  have hv : c.toNat < 55296 ∨ (57343 < c.toNat ∧ c.toNat < 1114112) := c.valid
  simp only [utf8EncodeChar]
  split
  · intro x hx
    simp only [List.mem_singleton] at hx
    omega
  · split
    · intro x hx
      simp only [List.mem_cons, List.mem_singleton, List.not_mem_nil, or_false] at hx
      rcases hx with rfl | rfl <;> omega
    · split
      · intro x hx
        simp only [List.mem_cons, List.not_mem_nil, or_false] at hx
        rcases hx with rfl | rfl | rfl <;> omega
      · intro x hx
        simp only [List.mem_cons, List.not_mem_nil, or_false] at hx
        rcases hx with rfl | rfl | rfl | rfl <;> omega

/-- The string encoder distributes over cons. -/
lemma utf8Encode_cons (c : Char) (cs : PyStr) :
    utf8Encode (c :: cs) = utf8EncodeChar c ++ utf8Encode cs := rfl

/-- Every byte the UTF-8 encoder emits is a byte. -/
lemma utf8Encode_lt_256 (s : PyStr) : ∀ x ∈ utf8Encode s, x < 256 := by
  induction s with
  | nil => intro x hx; cases hx
  | cons c cs ih =>
    intro x hx
    rw [utf8Encode_cons] at hx
    rcases List.mem_append.mp hx with h | h
    · exact utf8EncodeChar_lt_256 c x h
    · exact ih x h

/-- A character encodes to at least one byte. -/
lemma utf8EncodeChar_ne_nil (c : Char) : utf8EncodeChar c ≠ [] := by
  simp only [utf8EncodeChar]
  split
  · simp
  · split
    · simp
    · split <;> simp

/-- A nonempty string encodes to nonempty bytes. -/
lemma utf8Encode_ne_nil (s : PyStr) (h : s ≠ []) : utf8Encode s ≠ [] := by
  cases s with
  | nil => exact absurd rfl h
  | cons c cs =>
    rw [utf8Encode_cons]
    intro hcontra
    exact utf8EncodeChar_ne_nil c (List.append_eq_nil.mp hcontra).1

/-- Encoding a nonempty byte list yields nonempty base64 text. -/
lemma b64encode_ne_nil (bs : List Nat) (h : bs ≠ []) : b64encode bs ≠ [] := by
  match bs with
  | [] => exact absurd rfl h
  | [a] => simp [b64encode]
  | [a, b] => simp [b64encode]
  | a :: b :: c :: rest => simp [b64encode]

/-- Decoding consumes the encoding of one character and continues. -/
lemma utf8Decode_encodeChar (c : Char) (rest : List Nat) (tail : PyStr)
    (h : utf8Decode rest = some tail) :
    utf8Decode (utf8EncodeChar c ++ rest) = some (c :: tail) := by
  have hv : c.toNat < 55296 ∨ (57343 < c.toNat ∧ c.toNat < 1114112) := c.valid
  simp only [utf8EncodeChar]
  by_cases h1 : c.toNat < 128
  · rw [if_pos h1]
    simp only [List.cons_append, List.nil_append]
    rw [utf8Decode.eq_def]
    simp only []
    rw [if_pos h1, h]
    simp only [Option.map_some']
    rw [char_ofNat_toNat]
  · by_cases h2 : c.toNat < 2048
    · rw [if_neg h1, if_pos h2]
      simp only [List.cons_append, List.nil_append]
      rw [utf8Decode.eq_def]
      simp only []
      rw [if_neg (by omega), if_neg (by omega), if_pos (by omega), if_pos (by omega)]
      have harg : (192 + c.toNat / 64 - 192) * 64 + (128 + c.toNat % 64 - 128) = c.toNat := by
        omega
      rw [harg, h]
      simp only [Option.map_some']
      rw [char_ofNat_toNat]
    · by_cases h3 : c.toNat < 65536
      · rw [if_neg h1, if_neg h2, if_pos h3]
        simp only [List.cons_append, List.nil_append]
        rw [utf8Decode.eq_def]
        simp only []
        rw [if_neg (by omega), if_neg (by omega), if_neg (by omega), if_pos (by omega),
          if_pos (by omega)]
        have harg : (224 + c.toNat / 4096 - 224) * 4096 +
            (128 + c.toNat / 64 % 64 - 128) * 64 + (128 + c.toNat % 64 - 128) = c.toNat := by
          omega
        rw [harg, h]
        simp only [Option.map_some']
        rw [char_ofNat_toNat]
      · rw [if_neg h1, if_neg h2, if_neg h3]
        simp only [List.cons_append, List.nil_append]
        rw [utf8Decode.eq_def]
        simp only []
        rw [if_neg (by omega), if_neg (by omega), if_neg (by omega), if_neg (by omega),
          if_pos (by omega), if_pos (by omega)]
        have harg : (240 + c.toNat / 262144 - 240) * 262144 +
            (128 + c.toNat / 4096 % 64 - 128) * 4096 +
            (128 + c.toNat / 64 % 64 - 128) * 64 + (128 + c.toNat % 64 - 128) = c.toNat := by
          omega
        rw [harg, h]
        simp only [Option.map_some']
        rw [char_ofNat_toNat]

/-- Decoding inverts encoding: the UTF-8 text channel is lossless on
encodable text. -/
lemma utf8_roundtrip (s : PyStr) : utf8Decode (utf8Encode s) = some s := by
  induction s with
  | nil => rfl
  | cons c cs ih =>
    rw [utf8Encode_cons]
    exact utf8Decode_encodeChar c (utf8Encode cs) cs ih

/-- C6 counterexample: the claim covers the empty byte sequence and promises
a read-back of exactly the written bytes, but writing empty bytes sends the
empty base64 text, which the POST /file handler rejects as falsy with 400
before anything is written — and reading the never-written path does not
fail: cat reports the missing file on the exec stream, so GET /file answers
200 whose base64 payload decodes to cat's error text, not to the original
(empty) content. -/
theorem C6_counterexample :
    b64encode [] = [] ∧
    save_file [] "/testbed/f.txt" (b64encode []) = ([], 400) ∧
    get_file [] "/testbed/f.txt" =
      (200, some (b64encode
        (utf8Encode "cat: /testbed/f.txt: No such file or directory\n".data))) ∧
    b64decode (b64encode
        (utf8Encode "cat: /testbed/f.txt: No such file or directory\n".data)) ≠
      ([] : List Nat) := by
  refine ⟨rfl, by decide, by decide, by decide⟩

/-- C6 amended: for every path and every nonempty byte sequence that is the
UTF-8 encoding of text — the only content the text-oriented exec channel
carries faithfully — writing through the POST /file handler stores exactly
those bytes (the base64 transport and the write verification read-back are
lossless), and reading the path back through GET /file returns 200 with
base64 text that decodes to exactly those bytes: cat's text survives the
UTF-8 decode of the stream and the handler's re-encode byte for byte.  The
empty sequence alone is rejected with 400, and a never-written path reads
back as cat's error text with 200, never 404. -/
theorem C6_amended_file_roundtrip (disk : Disk) (path : String) (content : PyStr)
    (hpath : path ≠ "") (hne : content ≠ []) :
    save_file disk path (b64encode (utf8Encode content)) =
      (diskWrite disk path (utf8Encode content), 200) ∧
    get_file (diskWrite disk path (utf8Encode content)) path =
      (200, some (b64encode (utf8Encode content))) ∧
    b64decode (b64encode (utf8Encode content)) = utf8Encode content := by
  have hb : ∀ x ∈ utf8Encode content, x < 256 := utf8Encode_lt_256 content
  have hrt := b64_roundtrip (utf8Encode content) hb
  have hp : (path == "") = false := beq_eq_false_iff_ne.mpr hpath
  have hencne : utf8Encode content ≠ [] := utf8Encode_ne_nil content hne
  have henc : (b64encode (utf8Encode content)).isEmpty = false := by
    cases hbe : b64encode (utf8Encode content) with
    | nil => exact absurd hbe (b64encode_ne_nil _ hencne)
    | cons a t => rfl
  refine ⟨?_, ?_, hrt⟩
  · simp only [save_file, hp, henc, Bool.or_self, Bool.false_eq_true, if_false]
    rw [hrt, write_file_ok disk path (utf8Encode content) hb]
  · simp only [get_file, hp, Bool.false_eq_true, if_false,
      KubernetesContainer.read_file, diskRead_diskWrite]
    rw [utf8_roundtrip content]

/-- C6 witness: the amended round trip at a concrete path and text content
(with a non-ASCII character exercising a multi-byte UTF-8 sequence). -/
theorem C6_witness :
    save_file [] "/a" (b64encode (utf8Encode "héllo".data)) =
      (diskWrite [] "/a" (utf8Encode "héllo".data), 200) ∧
    get_file (diskWrite [] "/a" (utf8Encode "héllo".data)) "/a" =
      (200, some (b64encode (utf8Encode "héllo".data))) ∧
    b64decode (b64encode (utf8Encode "héllo".data)) = utf8Encode "héllo".data :=
  C6_amended_file_roundtrip [] "/a" "héllo".data (by decide) (by decide)

/-- find? skips an appended tail in which nothing matches. -/
lemma my_find?_append {α : Type} (p : α → Bool) (l1 l2 : List α) (h : l2.find? p = none) :
    (l1 ++ l2).find? p = l1.find? p := by
  induction l1 with
  | nil => simpa using h
  | cons x xs ih =>
    by_cases hx : p x = true
    · rw [List.cons_append, List.find?_cons_of_pos _ hx, List.find?_cons_of_pos _ hx]
    · have hx' : ¬ p x = true := hx
      rw [List.cons_append, List.find?_cons_of_neg _ hx', List.find?_cons_of_neg _ hx']
      exact ih

/-- Creating a fresh job and service under a new name leaves the derived
status of every other name unchanged. -/
lemma read_status_extend (st : ClusterState) (newId inst user n : String)
    (hn : (newId == n) = false) :
    _read_testbed_status
      { st with jobs := st.jobs ++ [⟨newId, inst, user⟩],
                services := st.services ++ [(newId, true)] } n
      = _read_testbed_status st n := by
  have hsvc : ((st.services ++ [(newId, true)]).find? (fun s => s.1 == n))
      = st.services.find? (fun s => s.1 == n) := by
    apply my_find?_append
    simp [List.find?, hn]
  simp only [_read_testbed_status, _get_service_status, hsvc]

/-- A reuse scan that came back empty saw every matching job with Unknown
status. -/
lemma scanForReusable_none_mono (st : ClusterState) (inst user : String)
    (jobs : List K8sJob) (h : scanForReusable st inst user jobs = none) :
    ∀ j ∈ jobs, (j.instance_id == inst) = true → (j.user_id == user) = true →
      _read_testbed_status st j.name = "Unknown" := by
  induction jobs with
  | nil => intro j hj; cases hj
  | cons x xs ih =>
    intro j hj hji hju
    by_cases hx : (x.instance_id == inst && x.user_id == user) = true
    · rw [scanForReusable, if_pos hx] at h
      by_cases hs : _read_testbed_status st x.name = "Unknown"
      · rw [if_neg (fun hne => hne hs)] at h
        rcases List.mem_cons.mp hj with rfl | hjm
        · exact hs
        · exact ih h j hjm hji hju
      · rw [if_pos hs] at h
        cases h
    · rw [scanForReusable, if_neg hx] at h
      rcases List.mem_cons.mp hj with rfl | hjm
      · exact absurd (by rw [hji, hju]; rfl) hx
      · exact ih h j hjm hji hju

/-- If every earlier matching job reads Unknown and the appended job matches
with a non-Unknown status, the reuse scan lands exactly on the appended
job. -/
lemma scanForReusable_append_found (st : ClusterState) (inst user : String)
    (jobs : List K8sJob) (J : K8sJob)
    (hall : ∀ j ∈ jobs, (j.instance_id == inst) = true → (j.user_id == user) = true →
      _read_testbed_status st j.name = "Unknown")
    (hJi : (J.instance_id == inst) = true) (hJu : (J.user_id == user) = true)
    (hJs : _read_testbed_status st J.name ≠ "Unknown") :
    scanForReusable st inst user (jobs ++ [J]) =
      some ⟨J.name, J.instance_id, _read_testbed_status st J.name⟩ := by
  induction jobs with
  | nil =>
    rw [List.nil_append, scanForReusable, if_pos (by rw [hJi, hJu]; rfl), if_pos hJs]
  | cons x xs ih =>
    rw [List.cons_append, scanForReusable]
    by_cases hx : (x.instance_id == inst && x.user_id == user) = true
    · rw [if_pos hx]
      rw [Bool.and_eq_true] at hx
      have hxs : _read_testbed_status st x.name = "Unknown" :=
        hall x (List.mem_cons_self _ _) hx.1 hx.2
      rw [if_neg (fun hne => hne hxs)]
      exact ih (fun j hj => hall j (List.mem_cons_of_mem _ hj))
    · rw [if_neg hx]
      exact ih (fun j hj => hall j (List.mem_cons_of_mem _ hj))

/-- C7 counterexample: immediately after a first findOrCreate, the created
testbed has no pod yet while its ClusterIP service is already addressable, so
its derived status reads Unknown; a second findOrCreate with no intervening
delete then skips it and creates a second testbed under a different id,
contradicting the claim that the second call always returns the same id. -/
theorem C7_counterexample :
    get_or_create_testbed ⟨[], [], [], [], ["dj"]⟩ "dj" "u" "aaaaa" =
      Except.ok (⟨[⟨"dj-testbed-aaaaa", "dj", "u"⟩], [], [("dj-testbed-aaaaa", true)], [], ["dj"]⟩,
                 ⟨"dj-testbed-aaaaa", "dj", "Unknown"⟩) ∧
    get_or_create_testbed
        ⟨[⟨"dj-testbed-aaaaa", "dj", "u"⟩], [], [("dj-testbed-aaaaa", true)], [], ["dj"]⟩
        "dj" "u" "bbbbb" =
      Except.ok (⟨[⟨"dj-testbed-aaaaa", "dj", "u"⟩, ⟨"dj-testbed-bbbbb", "dj", "u"⟩], [],
                  [("dj-testbed-aaaaa", true), ("dj-testbed-bbbbb", true)], [], ["dj"]⟩,
                 ⟨"dj-testbed-bbbbb", "dj", "Unknown"⟩) ∧
    ("dj-testbed-bbbbb" : String) ≠ "dj-testbed-aaaaa" := by
  refine ⟨?_, ?_, ?_⟩ <;> decide

/-- C7 amended: a second findOrCreate with no intervening delete returns the
same testbed id as the first, provided the first call's testbed does not read
the Unknown status when the second call scans (when it does read Unknown, the
second call creates a fresh testbed instead, as the counterexample shows); the
second call also leaves the cluster state unchanged. -/
theorem C7_amended_second_call_reuses (st : ClusterState) (instance_id user_id s1 s2 : String)
    (st1 : ClusterState) (r1 : TestbedSummary)
    (h1 : get_or_create_testbed st instance_id user_id s1 = Except.ok (st1, r1))
    (h2 : _read_testbed_status st1 r1.testbed_id ≠ "Unknown") :
    ∃ r2 : TestbedSummary,
      get_or_create_testbed st1 instance_id user_id s2 = Except.ok (st1, r2) ∧
      r2.testbed_id = r1.testbed_id := by
  unfold get_or_create_testbed at h1
  cases hscan : scanForReusable st instance_id user_id st.jobs with
  | some summary =>
    simp only [hscan] at h1
    injection h1 with hpair
    rw [Prod.mk.injEq] at hpair
    obtain ⟨hst, hr⟩ := hpair
    subst hst
    subst hr
    refine ⟨summary, ?_, rfl⟩
    unfold get_or_create_testbed
    rw [hscan]
  | none =>
    simp only [hscan] at h1
    simp only [create_testbed] at h1
    split at h1
    · exact Except.noConfusion h1
    · split at h1
      · exact Except.noConfusion h1
      · rename_i hjobfree
        split at h1
        · exact Except.noConfusion h1
        · injection h1 with hpair
          rw [Prod.mk.injEq] at hpair
          obtain ⟨hst, hr⟩ := hpair
          subst hst
          subst hr
          have hfresh : ∀ j ∈ st.jobs,
              ((_generate_test_id instance_id s1 == j.name) = false) := by
            intro j hj
            rw [beq_eq_false_iff_ne]
            intro he
            apply hjobfree
            rw [List.any_eq_true]
            exact ⟨j, hj, by rw [he]; exact beq_self_eq_true _⟩
          have hall1 : ∀ j ∈ st.jobs, (j.instance_id == instance_id) = true →
              (j.user_id == user_id) = true →
              _read_testbed_status
                (⟨st.jobs ++ [⟨_generate_test_id instance_id s1, instance_id, user_id⟩],
                  st.pods, st.services ++ [(_generate_test_id instance_id s1, true)],
                  st.healthy, st.knownInstances⟩ : ClusterState)
                j.name = "Unknown" := by
            intro j hj hji hju
            rw [read_status_extend st (_generate_test_id instance_id s1) instance_id user_id
              j.name (hfresh j hj)]
            exact scanForReusable_none_mono st _ _ _ hscan j hj hji hju
          have hJs : _read_testbed_status
              (⟨st.jobs ++ [⟨_generate_test_id instance_id s1, instance_id, user_id⟩],
                st.pods, st.services ++ [(_generate_test_id instance_id s1, true)],
                st.healthy, st.knownInstances⟩ : ClusterState)
              (_generate_test_id instance_id s1) ≠ "Unknown" := h2
          have hscanNew := scanForReusable_append_found
            (⟨st.jobs ++ [⟨_generate_test_id instance_id s1, instance_id, user_id⟩],
              st.pods, st.services ++ [(_generate_test_id instance_id s1, true)],
              st.healthy, st.knownInstances⟩ : ClusterState)
            instance_id user_id st.jobs
            ⟨_generate_test_id instance_id s1, instance_id, user_id⟩
            hall1 (beq_self_eq_true _) (beq_self_eq_true _) hJs
          refine ⟨⟨_generate_test_id instance_id s1, instance_id,
            _read_testbed_status
              (⟨st.jobs ++ [⟨_generate_test_id instance_id s1, instance_id, user_id⟩],
                st.pods, st.services ++ [(_generate_test_id instance_id s1, true)],
                st.healthy, st.knownInstances⟩ : ClusterState)
              (_generate_test_id instance_id s1)⟩, ?_, rfl⟩
          unfold get_or_create_testbed
          rw [show (⟨st.jobs ++ [⟨_generate_test_id instance_id s1, instance_id, user_id⟩],
                st.pods, st.services ++ [(_generate_test_id instance_id s1, true)],
                st.healthy, st.knownInstances⟩ : ClusterState).jobs
              = st.jobs ++ [⟨_generate_test_id instance_id s1, instance_id, user_id⟩]
            from rfl]
          rw [hscanNew]

/-- C7 witness: with a healthy Running testbed already present for the pair,
the second call finds and reuses it with the same id. -/
theorem C7_witness :
    ∃ r2 : TestbedSummary,
      get_or_create_testbed
        ⟨[⟨"dj-testbed-zzzzz", "dj", "u"⟩],
         [("dj-testbed-zzzzz", ⟨"Running", ⟨true, true, 0, "running", none, none⟩,
            ⟨true, true, 0, "running", none, none⟩⟩)],
         [("dj-testbed-zzzzz", true)], ["dj-testbed-zzzzz"], ["dj"]⟩
        "dj" "u" "bbbbb" =
      Except.ok
        (⟨[⟨"dj-testbed-zzzzz", "dj", "u"⟩],
          [("dj-testbed-zzzzz", ⟨"Running", ⟨true, true, 0, "running", none, none⟩,
             ⟨true, true, 0, "running", none, none⟩⟩)],
          [("dj-testbed-zzzzz", true)], ["dj-testbed-zzzzz"], ["dj"]⟩, r2) ∧
      r2.testbed_id = (⟨"dj-testbed-zzzzz", "dj", "Running"⟩ : TestbedSummary).testbed_id :=
  C7_amended_second_call_reuses
    ⟨[⟨"dj-testbed-zzzzz", "dj", "u"⟩],
     [("dj-testbed-zzzzz", ⟨"Running", ⟨true, true, 0, "running", none, none⟩,
        ⟨true, true, 0, "running", none, none⟩⟩)],
     [("dj-testbed-zzzzz", true)], ["dj-testbed-zzzzz"], ["dj"]⟩
    "dj" "u" "aaaaa" "bbbbb"
    ⟨[⟨"dj-testbed-zzzzz", "dj", "u"⟩],
     [("dj-testbed-zzzzz", ⟨"Running", ⟨true, true, 0, "running", none, none⟩,
        ⟨true, true, 0, "running", none, none⟩⟩)],
     [("dj-testbed-zzzzz", true)], ["dj-testbed-zzzzz"], ["dj"]⟩
    ⟨"dj-testbed-zzzzz", "dj", "Running"⟩ (by decide) (by decide)
